import Mathlib

/-!
Verification of the gempy core data module (`gempy/core/data.py`).

Each Python function relevant to the claims is shallowly embedded as a Lean
definition. Machine floats are modelled as exact rationals (`ℚ`) where the
code only performs field arithmetic and comparisons, and as real numbers
(`ℝ`) where the code calls transcendental functions (`arccos`, `arctan2`,
`sin`, `cos`, `sqrt`). `np.nan_to_num` is the identity on the inputs that
arise in the claims (no NaN can be produced there), and is modelled as such.
Pandas data frames are modelled as lists of rows; a categorical index is
modelled as a list of labels plus a list of categories.
-/

/-! ## Basic list helpers (numpy max / min over a 1-d array) -/

/-- Embeds `np.max` / `pandas.DataFrame.max` on a column: maximum of a list,
with the junk value 0 on the empty list (where pandas would produce NaN). -/
def listMax : List ℚ → ℚ
  | [] => 0
  | a :: l => l.foldl max a

/-- Embeds `np.min` / `pandas.DataFrame.min` on a column: minimum of a list,
with the junk value 0 on the empty list (where pandas would produce NaN). -/
def listMin : List ℚ → ℚ
  | [] => 0
  | a :: l => l.foldl min a

/-! ## C1 : `GridClass.create_regular_grid_3d` (data.py lines 100-135) -/

/-- Embeds `np.linspace(start, stop, num)`: `num` evenly spaced samples from
`start` to `stop`, endpoints included; `num = 1` gives `[start]`. -/
def linspace (start stop : ℚ) (num : ℕ) : List ℚ :=
  if num = 1 then [start]
  else (List.range num).map fun i => start + (stop - start) * i / ((num : ℚ) - 1)

/-- Embeds `GridClass.create_regular_grid_3d(extent, resolution)`.
The source computes
`dx, dy, dz = (extent[1]-extent[0])/resolution[0], (extent[3]-extent[2])/resolution[0], (extent[5]-extent[4])/resolution[0]`
(all three cell widths divided by `resolution[0]`), then meshes
`linspace(extent[0]+dx/2, extent[1]-dx/2, resolution[0])` (same for y, z)
with `indexing="ij"` and unravels it so that x varies slowest and z fastest. -/
def create_regular_grid_3d (extent : List ℚ) (resolution : List ℕ) : List (ℚ × ℚ × ℚ) :=
  let e := fun i => extent.getD i 0
  let r := fun i => resolution.getD i 0
  let dx := (e 1 - e 0) / (r 0 : ℚ)
  let dy := (e 3 - e 2) / (r 0 : ℚ)
  let dz := (e 5 - e 4) / (r 0 : ℚ)
  let xs := linspace (e 0 + dx / 2) (e 1 - dx / 2) (r 0)
  let ys := linspace (e 2 + dy / 2) (e 3 - dy / 2) (r 1)
  let zs := linspace (e 4 + dz / 2) (e 5 - dz / 2) (r 2)
  xs.flatMap fun x => ys.flatMap fun y => zs.map fun z => (x, y, z)

/-- The lattice the claim describes (for comparison with the source): the cell
width of each axis is that axis's extent length divided by that axis's own
resolution entry. Differs from `create_regular_grid_3d` only in the divisors
of `dy` and `dz`. -/
def claimed_regular_grid_3d (extent : List ℚ) (resolution : List ℕ) : List (ℚ × ℚ × ℚ) :=
  let e := fun i => extent.getD i 0
  let r := fun i => resolution.getD i 0
  let dx := (e 1 - e 0) / (r 0 : ℚ)
  let dy := (e 3 - e 2) / (r 1 : ℚ)
  let dz := (e 5 - e 4) / (r 2 : ℚ)
  let xs := linspace (e 0 + dx / 2) (e 1 - dx / 2) (r 0)
  let ys := linspace (e 2 + dy / 2) (e 3 - dy / 2) (r 1)
  let zs := linspace (e 4 + dz / 2) (e 5 - dz / 2) (r 2)
  xs.flatMap fun x => ys.flatMap fun y => zs.map fun z => (x, y, z)

/-! ## C2 : `RescaledData` (data.py lines 1562-1823) -/

/-- One observation point (a row of the `X`, `Y`, `Z` columns of the
Interfaces or Orientations data frame). -/
structure XYZ where
  x : ℚ
  y : ℚ
  z : ℚ
deriving DecidableEq, Repr

/-- Embeds `RescaledData.max_min_coord(interfaces, orientations)` in the case
where both objects are passed: the per-column max and min of
`pn.concat([orientations.df, interfaces.df])`. -/
def max_min_coord (interfaces orientations : List XYZ) : XYZ × XYZ :=
  let df := orientations ++ interfaces
  (⟨listMax (df.map XYZ.x), listMax (df.map XYZ.y), listMax (df.map XYZ.z)⟩,
   ⟨listMin (df.map XYZ.x), listMin (df.map XYZ.y), listMin (df.map XYZ.z)⟩)

/-- Embeds `RescaledData.compute_data_center`: `(max_coord + min_coord) / 2`
componentwise. -/
def compute_data_center (max_coord min_coord : XYZ) : XYZ :=
  ⟨(max_coord.x + min_coord.x) / 2, (max_coord.y + min_coord.y) / 2,
   (max_coord.z + min_coord.z) / 2⟩

/-- Embeds `RescaledData.compute_rescaling_factor`:
`2 * np.max(max_coord - min_coord)` where the series holds the X, Y, Z
ranges in that order. -/
def compute_rescaling_factor (max_coord min_coord : XYZ) : ℚ :=
  2 * max (max (max_coord.x - min_coord.x) (max_coord.y - min_coord.y))
      (max_coord.z - min_coord.z)

/-- The rescaling applied to one coordinate row:
`(p - centers) / rescaling_factor + 0.5001`. -/
def rescale_point (factor : ℚ) (centers : XYZ) (p : XYZ) : XYZ :=
  ⟨(p.x - centers.x) / factor + 0.5001,
   (p.y - centers.y) / factor + 0.5001,
   (p.z - centers.z) / factor + 0.5001⟩

/-- Embeds `RescaledData.rescale_interfaces` with `idx = None` (all rows). -/
def rescale_interfaces (interfaces : List XYZ) (factor : ℚ) (centers : XYZ) : List XYZ :=
  interfaces.map (rescale_point factor centers)

/-- Embeds `RescaledData.rescale_orientations` with `idx = None` (all rows). -/
def rescale_orientations (orientations : List XYZ) (factor : ℚ) (centers : XYZ) : List XYZ :=
  orientations.map (rescale_point factor centers)

/-- Embeds `RescaledData.rescale_grid`:
`(grid.extent - np.repeat(centers, 2)) / rescaling_factor + 0.5001` for the
extent (so edge `2*a` and `2*a+1` both use the centre of axis `a`) and
`(grid.values - centers) / rescaling_factor + 0.5001` for the values. -/
def rescale_grid (extent : List ℚ) (values : List XYZ) (factor : ℚ) (centers : XYZ) :
    List ℚ × List XYZ :=
  (List.zipWith (fun e c => (e - c) / factor + 0.5001) extent
      [centers.x, centers.x, centers.y, centers.y, centers.z, centers.z],
   values.map (rescale_point factor centers))

/-- Result of `RescaledData.rescale_data`: the stored factor and centers and
the rescaled mirrors of interfaces, orientations and the grid. -/
structure RescaledState where
  rescaling_factor : ℚ
  centers : XYZ
  interfaces_r : List XYZ
  orientations_r : List XYZ
  extent_r : List ℚ
  values_r : List XYZ
deriving DecidableEq, Repr

/-- Embeds `RescaledData.rescale_data(rescaling_factor, centers)`: computes
the factor and centers when not supplied, then rescales interfaces,
orientations and the grid. -/
def rescale_data (interfaces orientations : List XYZ) (extent : List ℚ) (values : List XYZ)
    (rescaling_factor : Option ℚ) (centers : Option XYZ) : RescaledState :=
  let mm := max_min_coord interfaces orientations
  let factor := match rescaling_factor with
    | none => compute_rescaling_factor mm.1 mm.2
    | some f => f
  let ctr := match centers with
    | none => compute_data_center mm.1 mm.2
    | some c => c
  { rescaling_factor := factor
    centers := ctr
    interfaces_r := rescale_interfaces interfaces factor ctr
    orientations_r := rescale_orientations orientations factor ctr
    extent_r := (rescale_grid extent values factor ctr).1
    values_r := (rescale_grid extent values factor ctr).2 }

/-! ## C9 : `Solution.compute_surface_regular_grid` (data.py lines 2206-2245) -/

/-- Embeds `np.sum(axis=0)` on a 2-d array given as a list of rows. -/
def sumAxis0 : List (List ℚ) → List ℚ
  | [] => []
  | [r] => r
  | r :: rs => List.zipWith (· + ·) r (sumAxis0 rs)

/-- Embeds the isovalue handling of `Solution.compute_surface_regular_grid`:
`pot_int = self.scalar_field_at_interfaces.sum(axis=0)`, then the two guard
clauses that clamp `pot_int[surface_id]` into the numeric range of
`scalar_field` (each printing a warning message), in source order: first
`if not scalar_field.max() > pot_int[surface_id]` clamps to the maximum,
then `if not scalar_field.min() < pot_int[surface_id]` (on the updated
value) clamps to the minimum. Returns the isovalue finally handed to
`skimage.measure.marching_cubes_lewiner` together with a flag recording
whether a warning message was printed. -/
def clamp_isovalue (scalar_field : List ℚ) (p0 : ℚ) : ℚ × Bool :=
  let s1 := if listMax scalar_field > p0 then (p0, false) else (listMax scalar_field, true)
  if listMin scalar_field < s1.1 then s1 else (listMin scalar_field, true)

/-- The isovalue selection of `Solution.compute_surface_regular_grid`:
`pot_int[surface_id]` after the two clamping guards, see `clamp_isovalue`. -/
def compute_surface_isovalue (scalar_field_at_interfaces : List (List ℚ))
    (surface_id : ℕ) (scalar_field : List ℚ) : ℚ × Bool :=
  clamp_isovalue scalar_field ((sumAxis0 scalar_field_at_interfaces).getD surface_id 0)

/-! ## C5 : `AdditionalData` kriging defaults (data.py lines 2030-2084) -/

/-- Embeds `AdditionalData.default_range(extent)` (the non-`TypeError`
branch): `np.sqrt((extent[0]-extent[1])**2 + (extent[2]-extent[3])**2 +
(extent[4]-extent[5])**2)`. -/
noncomputable def default_range (e0 e1 e2 e3 e4 e5 : ℝ) : ℝ :=
  Real.sqrt ((e0 - e1) ^ 2 + (e2 - e3) ^ 2 + (e4 - e5) ^ 2)

/-- Embeds `AdditionalData.default_c_o`: `self.range_var ** 2 / 14 / 3`. -/
noncomputable def default_c_o (range_var : ℝ) : ℝ :=
  range_var ^ 2 / 14 / 3

/-- Embeds the masked assignments `n_universal_eq[u_grade == 0] = 0`,
`n_universal_eq[u_grade == 1] = 3`, `n_universal_eq[u_grade == 2] = 9` of
`AdditionalData.set_u_grade`; entries with any other grade keep the
`np.zeros_like` initialisation. -/
def grade_to_n_eq (u : ℕ) : ℕ :=
  if u = 0 then 0 else if u = 1 then 3 else if u = 2 then 9 else 0

/-- Embeds `AdditionalData.set_u_grade(None)` as a function of
`len_series_i`: `u_grade = np.zeros_like(self.len_series_i);
u_grade[(self.len_series_i > 1)] = 1`, then the grade-to-equation-count
mapping of `grade_to_n_eq`. -/
def set_u_grade_none (len_series_i : List ℕ) : List ℕ :=
  (len_series_i.map fun l => if 1 < l then 1 else 0).map grade_to_n_eq

/-! ## C4 : `Structure` (data.py lines 1826-1880) -/

/-- One row of the Interfaces data frame with its `id`, `order_series` and
`surface` columns populated (the columns `Structure` reads). -/
structure IRow where
  id : ℕ
  order_series : ℕ
  surface : String
deriving DecidableEq, Repr

/-- Embeds `pandas.Series.value_counts(sort=False)` on a fully populated
column: one count per distinct value. The claims only use the multiset of
counts; the distinct values are enumerated here via `List.dedup`. -/
def value_counts (l : List ℕ) : List ℕ :=
  l.dedup.map fun k => l.count k

/-- Embeds `Structure.set_length_formations_i`:
`interfaces.df['id'].value_counts(sort=False).values`. -/
def set_length_formations_i (interfaces : List IRow) : List ℕ :=
  value_counts (interfaces.map IRow.id)

/-- Embeds `Structure.set_length_series_i`:
`interfaces.df['order_series'].value_counts(sort=False).values`, with a 0
inserted when the result is empty. -/
def set_length_series_i (interfaces : List IRow) : List ℕ :=
  let len_series_i := value_counts (interfaces.map IRow.order_series)
  if len_series_i = [] then [0] else len_series_i

/-- Embeds `np.ndarray.cumsum` on a 1-d array of naturals. -/
def cumsum : List ℕ → List ℕ
  | [] => []
  | a :: l => a :: (cumsum l).map (a + ·)

/-- Embeds `Structure.set_number_of_formations_per_series`:
`interfaces.df.groupby('order_series').surface.nunique().values.cumsum()`.
`groupby` enumerates the distinct `order_series` keys in ascending order;
`nunique` counts the distinct surfaces within each group. -/
def set_number_of_formations_per_series (interfaces : List IRow) : List ℕ :=
  cumsum ((List.insertionSort (· ≤ ·) (interfaces.map IRow.order_series).dedup).map
    fun g => ((interfaces.filter fun r => r.order_series == g).map IRow.surface).dedup.length)

/-! ## C6 : `Series` / `Faults` index bookkeeping (data.py lines 138-300) -/

/-- The categorical-index state shared by `Series.df`, `Faults.df` and
`Faults.faults_relations_df`: the row labels of each table (for
`faults_relations_df` also its column labels) and the category set of the
shared categorical index. Cell contents (`order_series`, `isFault`, the
boolean relation entries) play no role in the indexing claim. In every
state the program can construct, the four tables carry the same category
set, so a single `cats` list models all four. -/
structure SeriesState where
  cats : List String
  series_idx : List String
  faults_idx : List String
  rel_rows : List String
  rel_cols : List String
deriving DecidableEq, Repr

/-- Embeds `Series.add_series`: names already present among the categories
are dropped (`np.in1d` against `self.df.index.categories`), the remaining
names are added to the categories (`add_categories` keeps the labels), the
resulting index is assigned to all four tables, and each new name then
gains a row in `series.df` and `faults.df` (`df.loc[c] = np.nan`) and a
row and a column in `faults_relations_df`
(`faults_relations_df.loc[c, c] = np.nan` enlargement). -/
def add_series (names : List String) (s : SeriesState) : SeriesState :=
  let new := names.filter fun c => !(s.cats.contains c)
  { cats := s.cats ++ new
    series_idx := s.series_idx ++ new
    faults_idx := s.series_idx ++ new
    rel_rows := s.series_idx ++ new
    rel_cols := s.series_idx ++ new }

/-- Embeds `Series.delete_series`: `df.drop` on the series and faults
tables and on both axes of `faults_relations_df`, then
`remove_unused_categories` on the series index and assignment of the
result to all four tables. -/
def delete_series (names : List String) (s : SeriesState) : SeriesState :=
  let remaining := s.series_idx.filter fun c => !(names.contains c)
  { cats := s.cats.filter fun c => remaining.contains c
    series_idx := remaining
    faults_idx := remaining
    rel_rows := remaining
    rel_cols := remaining }

/-- Embeds `Series.rename_series` with a dict argument:
`rename_categories` maps every category (hence every label) through the
dict, and the renamed series index is assigned to all four tables. -/
def rename_series (mapping : List (String × String)) (s : SeriesState) : SeriesState :=
  let ren := fun c => ((mapping.find? fun p => p.1 == c).map Prod.snd).getD c
  { cats := s.cats.map ren
    series_idx := s.series_idx.map ren
    faults_idx := s.series_idx.map ren
    rel_rows := s.series_idx.map ren
    rel_cols := s.series_idx.map ren }

/-- Embeds `Series.reorder_series`:
`reorder_categories(new_categories).sort_values()` rearranges the labels
of the series index into the new category order, and the result is
assigned to all four tables. -/
def reorder_series (new_categories : List String) (s : SeriesState) : SeriesState :=
  let sorted := new_categories.flatMap fun c => List.replicate (s.series_idx.count c) c
  { cats := new_categories
    series_idx := sorted
    faults_idx := sorted
    rel_rows := sorted
    rel_cols := sorted }

/-- Embeds the state right after `Series.__init__` / `Faults.__init__`:
every table indexed by the single category `Default series`. -/
def series_init : SeriesState :=
  { cats := ["Default series"]
    series_idx := ["Default series"]
    faults_idx := ["Default series"]
    rel_rows := ["Default series"]
    rel_cols := ["Default series"] }

/-- Embeds `Series.set_series_index(series_order)` for a list argument:
`set_categories(series_idx, rename=True)` renames every index's
categories positionally into the new list (relabelling the existing
rows), and the loop `for c in series_order` then gives each name a row in
each table (`.loc` overwrites existing labels and enlarges with new
ones). -/
def set_series_index (order : List String) (s : SeriesState) : SeriesState :=
  let ren := fun c => match s.cats.findIdx? (fun x => x == c) with
    | some i => order.getD i c
    | none => c
  let base : SeriesState :=
    { cats := order
      series_idx := s.series_idx.map ren
      faults_idx := s.faults_idx.map ren
      rel_rows := s.rel_rows.map ren
      rel_cols := s.rel_cols.map ren }
  order.foldl (fun st c =>
    { st with
      series_idx := if st.series_idx.contains c then st.series_idx else st.series_idx ++ [c]
      faults_idx := if st.faults_idx.contains c then st.faults_idx else st.faults_idx ++ [c]
      rel_rows := if st.rel_rows.contains c then st.rel_rows else st.rel_rows ++ [c]
      rel_cols := if st.rel_cols.contains c then st.rel_cols else st.rel_cols ++ [c] }) base

/-- One structural operation on the Series catalog. -/
inductive SeriesOp where
  | add (names : List String)
  | ren (mapping : List (String × String))
  | reorder (new_categories : List String)
  | del (names : List String)
deriving DecidableEq, Repr

/-- Applies one structural operation. -/
def apply_series_op : SeriesOp → SeriesState → SeriesState
  | .add names, s => add_series names s
  | .ren m, s => rename_series m s
  | .reorder n, s => reorder_series n s
  | .del n, s => delete_series n s

/-- Applies a sequence of structural operations, first element first. -/
def apply_series_ops (ops : List SeriesOp) (s : SeriesState) : SeriesState :=
  ops.foldl (fun st op => apply_series_op op st) s

/-- The synchronisation invariant of the claim: the faults table index and
both axes of `faults_relations_df` are identical to the Series index
(squareness of the relation matrix follows). -/
def seriesAligned (s : SeriesState) : Prop :=
  s.faults_idx = s.series_idx ∧ s.rel_rows = s.series_idx ∧ s.rel_cols = s.series_idx

/-! ## C7, C8 : `Formations` catalog (data.py lines 368-693) -/

/-- One row of the Formations data frame: its pandas index label, the
formation name, the `isBasement` flag (`none` models NaN before `fillna`)
and the `id` column (`none` until `set_id` has run). The `series` and
value columns play no role in these claims. -/
structure FRow where
  label : ℕ
  formation : String
  isBasement : Option Bool
  id : Option ℕ
deriving DecidableEq, Repr

/-- The Formations catalog: the rows of `Formations.df` in order, plus the
categories of the `formation` column. -/
structure FCatalog where
  rows : List FRow
  cats : List String
deriving DecidableEq, Repr

/-- Embeds `Formations.set_id` with `df = None`:
`df['id'] = df.index + 1` (the pandas index label plus one — not the row
position). -/
def formations_set_id (c : FCatalog) : FCatalog :=
  { c with rows := c.rows.map fun r => { r with id := some (r.label + 1) } }

/-- Embeds `self.df['isBasement'].fillna(False, inplace=True)`. -/
def fillna_isBasement (c : FCatalog) : FCatalog :=
  { c with rows := c.rows.map fun r => { r with isBasement := some (r.isBasement.getD false) } }

/-- Embeds `Formations.set_basement(None)` (the call made by
`set_formation_names_pro` / `add_formation`): after the fillna, the rows
currently flagged as basement are collected; with none the comparison
`df['formation'] == None` leaves every flag False, with exactly one every
row is compared against that name. Two or more flagged rows cannot be
produced by the class (the assert keeps at most one), so that degenerate
ndarray comparison is left as the identity here. -/
def set_basement_auto (c : FCatalog) : FCatalog :=
  let c1 := fillna_isBasement c
  match (c1.rows.filter fun r => r.isBasement == some true).map FRow.formation with
  | [] => { c1 with rows := c1.rows.map fun r => { r with isBasement := some false } }
  | [b] => { c1 with rows := c1.rows.map fun r => { r with isBasement := some (r.formation == b) } }
  | _ => c1

/-- Embeds `Formations.set_basement(basement_formation)` with an explicit
name: fillna, then the assignment
`self.df['isBasement'] = self.df['formation'] == basement_formation`
(which happens before the check), then the assert
`isBasement.sum() <= 1` raising `Only one formation can be basement`. -/
def set_basement_named (name : String) (c : FCatalog) : Except String FCatalog :=
  let c1 := fillna_isBasement c
  let c2 : FCatalog := { c1 with rows := c1.rows.map fun r =>
    { r with isBasement := some (r.formation == name) } }
  if 1 < c2.rows.countP (fun r => r.isBasement == some true) then
    .error "Only one formation can be basement"
  else .ok c2

/-- Embeds `Formations.add_basement(name)`: fillna, then the assert
`isBasement.sum() < 1` (raising before anything is appended when a
basement already exists), then
`self.df['formation'].cat.add_categories(name, inplace=True)` (a pandas
`ValueError` when the name is already a formation category, still before
any row is appended), then a row `[name, True]` appended at label
`last_valid_index() + 1` (a `TypeError` on the empty catalog, where
`last_valid_index()` is `None`), then `set_id`. -/
def add_basement (name : Option String) (c : FCatalog) : Except String FCatalog :=
  let c1 := fillna_isBasement c
  if 1 ≤ c1.rows.countP (fun r => r.isBasement == some true) then
    .error "Only one formation can be basement"
  else
    let n := name.getD "basement"
    if c1.cats.contains n then
      .error "ValueError: new categories must not include old categories"
    else
      match (c1.rows.map FRow.label).getLast? with
      | none => .error "TypeError: unsupported operand, last_valid_index() is None"
      | some l =>
        .ok (formations_set_id
          { rows := c1.rows ++ [{ label := l + 1, formation := n, isBasement := some true, id := none }]
            cats := c1.cats ++ [n] })

/-- Embeds `Formations.add_formation(formation_list)` with
`update_df=True`: names already among the categories are dropped, each
remaining name is appended at label `last_valid_index() + 1` (or 0 on the
empty catalog, via the `idx = -1` fallback), then `set_id` and
`set_basement` run (`map_series` only touches the unmodelled series
column). The row-appending step is split out as `append_formation_row`:
`idx = self.df.last_valid_index()` (`-1` on the empty catalog), then
`self.df.loc[idx + 1, 'formation'] = c` appends a row at that label. -/
def append_formation_row (rs : List FRow) (n : String) : List FRow :=
  let idx : ℕ := match (rs.map FRow.label).getLast? with
    | none => 0
    | some l => l + 1
  rs ++ [{ label := idx, formation := n, isBasement := none, id := none }]

/-- See `append_formation_row`; this is `Formations.add_formation` with
`update_df=True`. -/
def add_formation (names : List String) (c : FCatalog) : FCatalog :=
  let new := names.filter fun n => !(c.cats.contains n)
  let c1 : FCatalog :=
    { rows := new.foldl append_formation_row c.rows
      cats := c.cats ++ new }
  set_basement_auto (formations_set_id c1)

/-- Embeds `Formations.delete_formation(indices)` with `update_id=True`:
`df.drop(indices)` (labels of surviving rows unchanged) followed by
`set_id`. `set_basement` is not called here. -/
def delete_formation (labels : List ℕ) (c : FCatalog) : FCatalog :=
  formations_set_id { c with rows := c.rows.filter fun r => !(labels.contains r.label) }

/-- Embeds `Formations.set_formation_names_pro(list_names)` applied to the
freshly constructed empty catalog (the `Formations.__init__` path):
`self.df['formation'] = pn.Categorical(list_names)` creates rows labelled
`0..n-1`, then `set_id` and `set_basement` run. -/
def set_formation_names_pro (names : List String) : FCatalog :=
  let c1 : FCatalog :=
    { rows := names.enum.map fun p =>
        { label := p.1, formation := p.2, isBasement := none, id := none }
      cats := names.dedup }
  set_basement_auto (formations_set_id c1)

/-- A structural change to the Formations catalog that appends rows (the
operations under which the ids stay consecutive). -/
inductive FGrowOp where
  | addF (names : List String)
  | addB (name : Option String)
deriving DecidableEq, Repr

/-- Applies one growing operation; when `add_basement` raises, the catalog
keeps the rows it had at the raise (only the fillna had run). -/
def apply_f_grow_op : FGrowOp → FCatalog → FCatalog
  | .addF names, c => add_formation names c
  | .addB name, c =>
    match add_basement name c with
    | .ok c' => c'
    | .error _ => fillna_isBasement c

/-- Applies a sequence of growing operations, first element first. -/
def apply_f_grow_ops (ops : List FGrowOp) (c : FCatalog) : FCatalog :=
  ops.foldl (fun st op => apply_f_grow_op op st) c

/-! ## C3, C10 : `Orientations` (data.py lines 1153-1366) -/

/-- Embeds `np.arctan2(y, x)` on real (non-NaN, finite) arguments. -/
noncomputable def arctan2 (y x : ℝ) : ℝ :=
  if 0 < x then Real.arctan (y / x)
  else if x < 0 then
    (if 0 ≤ y then Real.arctan (y / x) + Real.pi else Real.arctan (y / x) - Real.pi)
  else
    (if 0 < y then Real.pi / 2 else if y < 0 then -(Real.pi / 2) else 0)

/-- Embeds `np.rad2deg`. -/
noncomputable def rad2deg (x : ℝ) : ℝ := x * 180 / Real.pi

/-- Embeds `np.deg2rad`. -/
noncomputable def deg2rad (x : ℝ) : ℝ := x * Real.pi / 180

/-- Embeds `Orientations.calculate_orientations` on one row:
`polarity = 1`; `dip = rad2deg(nan_to_num(arccos(G_z / polarity)))`;
`azimuth = rad2deg(nan_to_num(arctan2(G_x / polarity, G_y / polarity)))`,
shifted by `+360` when negative and forced to 0 when `dip < 0.001`.
`np.nan_to_num` is the identity on these inputs (`|G_z| ≤ 1` and finite
gradients produce no NaN). Returns `(dip, azimuth, polarity)`. -/
noncomputable def calculate_orientations (gx gy gz : ℝ) : ℝ × ℝ × ℝ :=
  let polarity : ℝ := 1
  let dip := rad2deg (Real.arccos (gz / polarity))
  let az0 := rad2deg (arctan2 (gx / polarity) (gy / polarity))
  let az1 := if az0 < 0 then az0 + 360 else az0
  let azimuth := if dip < 0.001 then 0 else az1
  (dip, azimuth, polarity)

/-- Embeds `Orientations.calculate_gradient` on one row: with dip and
azimuth in degrees,
`G_x = sin(dip)·sin(azimuth)·polarity + 1e-12`,
`G_y = sin(dip)·cos(azimuth)·polarity + 1e-12`,
`G_z = cos(dip)·polarity + 1e-12`. -/
noncomputable def calculate_gradient (dip azimuth polarity : ℝ) : ℝ × ℝ × ℝ :=
  (Real.sin (deg2rad dip) * Real.sin (deg2rad azimuth) * polarity + 1e-12,
   Real.sin (deg2rad dip) * Real.cos (deg2rad azimuth) * polarity + 1e-12,
   Real.cos (deg2rad dip) * polarity + 1e-12)

/-- One row of the Orientations data frame (the columns the claims use;
the rescaled mirrors and derived catalog columns are omitted). -/
structure ORow where
  X : ℝ
  Y : ℝ
  Z : ℝ
  G_x : ℝ
  G_y : ℝ
  G_z : ℝ
  dip : ℝ
  azimuth : ℝ
  polarity : ℝ
  surface : String

/-- Embeds `Orientations.set_orientations(coord, pole_vector, orientation,
surface)`: when coordinates, surfaces and at least one of `pole_vector` /
`orientation` are passed, the rows are built; `pole_vector` has priority —
the `G` columns are set from it and `calculate_orientations` recomputes
dip/azimuth/polarity, with a warning (the returned flag) when an
`orientation` argument was passed as well and ignored. Without a pole
vector the orientation triple `(azimuth, dip, polarity)` is stored and
`calculate_gradient` fills the `G` columns. If any of the three argument
groups is missing the data frame simply stays empty. The final assert
raises when a surface label is not among the formation categories. -/
noncomputable def set_orientations (cats : List String)
    (coord : Option (List (ℝ × ℝ × ℝ))) (pole_vector : Option (List (ℝ × ℝ × ℝ)))
    (orientation : Option (List (ℝ × ℝ × ℝ))) (surface : Option (List String)) :
    Except String (List ORow × Bool) :=
  match coord, surface with
  | some coords, some surfs =>
    match pole_vector, orientation with
    | some pv, _ =>
      let rows := (coords.zip (pv.zip surfs)).map fun t =>
        let dap := calculate_orientations t.2.1.1 t.2.1.2.1 t.2.1.2.2
        { X := t.1.1, Y := t.1.2.1, Z := t.1.2.2,
          G_x := t.2.1.1, G_y := t.2.1.2.1, G_z := t.2.1.2.2,
          dip := dap.1, azimuth := dap.2.1, polarity := dap.2.2,
          surface := t.2.2 }
      if rows.all (fun r => cats.contains r.surface) then .ok (rows, orientation.isSome)
      else .error "Some of the formation passed does not exist in the Formation object."
    | none, some ori =>
      let rows := (coords.zip (ori.zip surfs)).map fun t =>
        let g := calculate_gradient t.2.1.2.1 t.2.1.1 t.2.1.2.2
        { X := t.1.1, Y := t.1.2.1, Z := t.1.2.2,
          G_x := g.1, G_y := g.2.1, G_z := g.2.2,
          azimuth := t.2.1.1, dip := t.2.1.2.1, polarity := t.2.1.2.2,
          surface := t.2.2 }
      if rows.all (fun r => cats.contains r.surface) then .ok (rows, false)
      else .error "Some of the formation passed does not exist in the Formation object."
    | none, none => .ok ([], false)
  | _, _ => .ok ([], false)

/-- Embeds `Orientations.add_orientation(X, Y, Z, surface, pole_vector,
orientation, idx=None)`. With neither vector supplied the documented
`AttributeError` is raised. Otherwise, on the empty data frame
`idx = self.df.last_valid_index() + 1` raises a `TypeError`
(`None + 1`); and on a non-empty one the assignment
`self.df.loc[idx, 'X', 'Y', 'Z', 'G_x', 'G_y', 'G_z', 'surface'] = ...`
(likewise the `'azimuth', 'dip', 'polarioty'` variant in the orientation
branch) passes an 8-tuple key to `.loc` on a 2-axis frame, and pandas
raises `IndexingError: Too many indexers` before `calculate_orientations`
or `calculate_gradient` can run. -/
noncomputable def add_orientation (X Y Z : ℝ) (surface : String)
    (pole_vector : Option (ℝ × ℝ × ℝ)) (orientation : Option (ℝ × ℝ × ℝ))
    (rows : List ORow) : Except String (List ORow) :=
  if pole_vector.isNone && orientation.isNone then
    .error "Either pole_vector or orientation must have a value. If both are passed pole_vector has preference"
  else if rows.isEmpty then
    .error "TypeError: unsupported operand, last_valid_index() is None"
  else
    .error "IndexingError: Too many indexers"

/-- The keyword arguments accepted by `Orientations.modify_orientation`
(`none` = property not passed). -/
structure OUpdate where
  X : Option ℝ := none
  Y : Option ℝ := none
  Z : Option ℝ := none
  G_x : Option ℝ := none
  G_y : Option ℝ := none
  G_z : Option ℝ := none
  dip : Option ℝ := none
  azimuth : Option ℝ := none
  polarity : Option ℝ := none
  surface : Option String := none

/-- The `idx` argument of `Orientations.modify_orientation` /
`calculate_orientations`: a scalar pandas label or a list of labels
(`np.atleast_1d` wraps the scalar into a one-element array for the entry
assert only; `.loc` later sees the original form). -/
inductive OIdx where
  | scalar (i : ℕ)
  | list (is : List ℕ)

/-- The write `self.df.loc[idx, list(kwargs.keys())] = values` applied to
one addressed row. -/
noncomputable def apply_orientation_kwargs (row : ORow) (upd : OUpdate) : ORow :=
  { X := upd.X.getD row.X, Y := upd.Y.getD row.Y, Z := upd.Z.getD row.Z,
    G_x := upd.G_x.getD row.G_x, G_y := upd.G_y.getD row.G_y, G_z := upd.G_z.getD row.G_z,
    dip := upd.dip.getD row.dip, azimuth := upd.azimuth.getD row.azimuth,
    polarity := upd.polarity.getD row.polarity,
    surface := upd.surface.getD row.surface }

/-- The per-row effect of `Orientations.calculate_orientations(idx)` with
a LIST `idx` (data.py lines 1356-1366): `polarity = 1`,
`dip = rad2deg(arccos(G_z / polarity))`,
`azimuth = rad2deg(arctan2(G_x / polarity, G_y / polarity))` — and nothing
more: the follow-up lines
`self.df.loc[idx, "azimuth"][self.df.loc[idx, "azimuth"] < 0] += 360` and
`self.df.loc[idx, "azimuth"][self.df.loc[idx, "dip"] < 0.001] = 0` are
chained assignments on the copy returned by the fancy `.loc` read, so
neither the `+360` shift nor the small-dip zeroing is ever written back to
the frame. (With a SCALAR `idx` those same lines subscript a numpy scalar
and raise instead; see `modify_orientation`.) -/
noncomputable def calculate_orientations_idx (gx gy gz : ℝ) : ℝ × ℝ × ℝ :=
  let polarity : ℝ := 1
  let dip := rad2deg (Real.arccos (gz / polarity))
  let azimuth := rad2deg (arctan2 (gx / polarity) (gy / polarity))
  (dip, azimuth, polarity)

/-- Embeds `Orientations.modify_orientation(idx, **kwargs)` on a data
frame whose index labels are the row positions `0..n-1` (what
`set_orientations` builds). The entry assert
`self.df.index.isin(np.atleast_1d(idx)).all()` (data.py line 1298) tests
that every frame label lies in `idx` — inverted from the documented
intent, so any call not covering the whole frame raises. Past it, the
passed properties are written to the addressed rows; then if any of
`G_x`, `G_y`, `G_z` was passed, `calculate_orientations(idx)` runs: with
a scalar `idx` its azimuth-shift line subscripts a numpy scalar and
raises (`invalid index to scalar variable`), with a list `idx` it
overwrites dip/azimuth/polarity per `calculate_orientations_idx` (even
when those were passed in the same call, and without the `+360` /
small-dip normalisation). Otherwise if any of `dip`, `azimuth`,
`polarity` was passed, `calculate_gradient(idx)` (plain `.loc` writes,
no chaining) overwrites the `G` columns. -/
noncomputable def modify_orientation (idx : OIdx) (upd : OUpdate) (rows : List ORow) :
    Except String (List ORow) :=
  let is := match idx with | .scalar i => [i] | .list l => l
  if (List.range rows.length).all (fun l => is.contains l) then
    let rows1 := rows.enum.map fun p =>
      if is.contains p.1 then apply_orientation_kwargs p.2 upd else p.2
    if upd.G_x.isSome || upd.G_y.isSome || upd.G_z.isSome then
      match idx with
      | .scalar _ => .error "IndexError: invalid index to scalar variable"
      | .list _ =>
        .ok (rows1.enum.map fun p =>
          if is.contains p.1 then
            let dap := calculate_orientations_idx p.2.G_x p.2.G_y p.2.G_z
            { p.2 with dip := dap.1, azimuth := dap.2.1, polarity := dap.2.2 }
          else p.2)
    else if upd.dip.isSome || upd.azimuth.isSome || upd.polarity.isSome then
      .ok (rows1.enum.map fun p =>
        if is.contains p.1 then
          let g := calculate_gradient p.2.dip p.2.azimuth p.2.polarity
          { p.2 with G_x := g.1, G_y := g.2.1, G_z := g.2.2 }
        else p.2)
    else .ok rows1
  else .error "AssertionError: Indices must exist in the dataframe to be modified."

/-! ## Helper lemmas on `listMax` / `listMin` -/

theorem foldl_max_mem (l : List ℚ) (a : ℚ) : l.foldl max a ∈ a :: l := by
  induction l generalizing a with
  | nil => simp [List.foldl]
  | cons b l ih =>
    show List.foldl max (max a b) l ∈ a :: b :: l
    rcases List.mem_cons.1 (ih (max a b)) with h1 | h1
    · rw [h1]
      rcases max_choice a b with hm | hm <;> rw [hm]
      · exact List.mem_cons_self _ _
      · exact List.mem_cons_of_mem _ (List.mem_cons_self _ _)
    · exact List.mem_cons_of_mem _ (List.mem_cons_of_mem _ h1)

theorem le_foldl_max_init (l : List ℚ) (a : ℚ) : a ≤ l.foldl max a := by
  induction l generalizing a with
  | nil => simp [List.foldl]
  | cons b l ih => exact le_trans (le_max_left a b) (ih (max a b))

theorem le_foldl_max_of_mem {l : List ℚ} {x : ℚ} (hx : x ∈ l) (a : ℚ) :
    x ≤ l.foldl max a := by
  induction l generalizing a with
  | nil => cases hx
  | cons b l ih =>
    rcases List.mem_cons.1 hx with h | h
    · subst h
      exact le_trans (le_max_right a x) (le_foldl_max_init l _)
    · exact ih h (max a b)

theorem listMax_isGreatest (a : ℚ) (l : List ℚ) :
    IsGreatest {v | v ∈ a :: l} (listMax (a :: l)) := by
  constructor
  · exact foldl_max_mem l a
  · intro x hx
    rcases List.mem_cons.1 hx with h | h
    · subst h; exact le_foldl_max_init l x
    · exact le_foldl_max_of_mem h a

theorem foldl_min_mem (l : List ℚ) (a : ℚ) : l.foldl min a ∈ a :: l := by
  induction l generalizing a with
  | nil => simp [List.foldl]
  | cons b l ih =>
    show List.foldl min (min a b) l ∈ a :: b :: l
    rcases List.mem_cons.1 (ih (min a b)) with h1 | h1
    · rw [h1]
      rcases min_choice a b with hm | hm <;> rw [hm]
      · exact List.mem_cons_self _ _
      · exact List.mem_cons_of_mem _ (List.mem_cons_self _ _)
    · exact List.mem_cons_of_mem _ (List.mem_cons_of_mem _ h1)

theorem foldl_min_le_init (l : List ℚ) (a : ℚ) : l.foldl min a ≤ a := by
  induction l generalizing a with
  | nil => simp [List.foldl]
  | cons b l ih => exact le_trans (ih (min a b)) (min_le_left a b)

theorem foldl_min_le_of_mem {l : List ℚ} {x : ℚ} (hx : x ∈ l) (a : ℚ) :
    l.foldl min a ≤ x := by
  induction l generalizing a with
  | nil => cases hx
  | cons b l ih =>
    rcases List.mem_cons.1 hx with h | h
    · subst h
      exact le_trans (foldl_min_le_init l _) (min_le_right a x)
    · exact ih h (min a b)

theorem listMin_isLeast (a : ℚ) (l : List ℚ) :
    IsLeast {v | v ∈ a :: l} (listMin (a :: l)) := by
  constructor
  · exact foldl_min_mem l a
  · intro x hx
    rcases List.mem_cons.1 hx with h | h
    · subst h; exact foldl_min_le_init l x
    · exact foldl_min_le_of_mem h a

/-- C1. The claim states that `create_regular_grid_3d` uses, for each axis,
that axis's own resolution entry as the divisor of the cell width. The
source divides all three axis lengths by `resolution[0]`
(data.py lines 113-114), so for `extent = [0,1,0,1,0,1]`,
`resolution = [1,2,1]` the code produces the point `(1/2, 1/2, 1/2)` twice
(y cell width 1 instead of 1/2), while the claimed lattice has the two
distinct cell-centered points `(1/2, 1/4, 1/2)` and `(1/2, 3/4, 1/2)`. -/
theorem C1_regular_grid_cell_width_bug :
    create_regular_grid_3d [0, 1, 0, 1, 0, 1] [1, 2, 1] =
      [(1/2, 1/2, 1/2), (1/2, 1/2, 1/2)] ∧
    claimed_regular_grid_3d [0, 1, 0, 1, 0, 1] [1, 2, 1] =
      [(1/2, 1/4, 1/2), (1/2, 3/4, 1/2)] := by
  constructor <;>
    norm_num [create_regular_grid_3d, claimed_regular_grid_3d, linspace, List.range_succ]

theorem listMax_isGreatest_ne {l : List ℚ} (h : l ≠ []) :
    IsGreatest {v | v ∈ l} (listMax l) := by
  cases l with
  | nil => cases h rfl
  | cons a l => exact listMax_isGreatest a l

theorem listMin_isLeast_ne {l : List ℚ} (h : l ≠ []) :
    IsLeast {v | v ∈ l} (listMin l) := by
  cases l with
  | nil => cases h rfl
  | cons a l => exact listMin_isLeast a l

theorem mem_map_append_comm (A B : List XYZ) (f : XYZ → ℚ) :
    {v | v ∈ (A ++ B).map f} = {v | v ∈ (B ++ A).map f} := by
  ext v
  simp only [Set.mem_setOf_eq, List.map_append, List.mem_append]
  tauto

/-- C2. With no explicit factor/centers supplied and at least one interface
row `p` and one orientation row `q`, `rescale_data` uses a factor equal to
twice the largest of the three componentwise coordinate ranges over all
observation points (characterised by `IsGreatest` / `IsLeast` over the set
of observed coordinates), centers equal to the componentwise midpoint of
the observed bounding box, rescales every coordinate of interfaces,
orientations and the grid values to `(x - center)/factor + 0.5001`, and
maps each grid extent edge to `(edge - center of its axis)/factor +
0.5001`. -/
theorem C2_rescale_data_formulas (p q : XYZ) (intf ori : List XYZ)
    (e0 e1 e2 e3 e4 e5 : ℚ) (values : List XYZ) :
    ∃ Mx mx My my Mz mz,
      IsGreatest {v | v ∈ ((p :: intf) ++ (q :: ori)).map XYZ.x} Mx ∧
      IsLeast {v | v ∈ ((p :: intf) ++ (q :: ori)).map XYZ.x} mx ∧
      IsGreatest {v | v ∈ ((p :: intf) ++ (q :: ori)).map XYZ.y} My ∧
      IsLeast {v | v ∈ ((p :: intf) ++ (q :: ori)).map XYZ.y} my ∧
      IsGreatest {v | v ∈ ((p :: intf) ++ (q :: ori)).map XYZ.z} Mz ∧
      IsLeast {v | v ∈ ((p :: intf) ++ (q :: ori)).map XYZ.z} mz ∧
      (let F := 2 * max (max (Mx - mx) (My - my)) (Mz - mz)
       let c : XYZ := ⟨(Mx + mx) / 2, (My + my) / 2, (Mz + mz) / 2⟩
       rescale_data (p :: intf) (q :: ori) [e0, e1, e2, e3, e4, e5] values none none =
        { rescaling_factor := F
          centers := c
          interfaces_r := (p :: intf).map fun r =>
            ⟨(r.x - c.x) / F + 0.5001, (r.y - c.y) / F + 0.5001, (r.z - c.z) / F + 0.5001⟩
          orientations_r := (q :: ori).map fun r =>
            ⟨(r.x - c.x) / F + 0.5001, (r.y - c.y) / F + 0.5001, (r.z - c.z) / F + 0.5001⟩
          extent_r := [(e0 - c.x) / F + 0.5001, (e1 - c.x) / F + 0.5001,
            (e2 - c.y) / F + 0.5001, (e3 - c.y) / F + 0.5001,
            (e4 - c.z) / F + 0.5001, (e5 - c.z) / F + 0.5001]
          values_r := values.map fun r =>
            ⟨(r.x - c.x) / F + 0.5001, (r.y - c.y) / F + 0.5001,
             (r.z - c.z) / F + 0.5001⟩ }) := by
  have hne : ∀ f : XYZ → ℚ, ((q :: ori) ++ (p :: intf)).map f ≠ [] := by
    intro f; simp
  have hset : ∀ f : XYZ → ℚ,
      {v | v ∈ ((p :: intf) ++ (q :: ori)).map f} =
        {v | v ∈ ((q :: ori) ++ (p :: intf)).map f} :=
    fun f => mem_map_append_comm _ _ f
  refine ⟨listMax (((q :: ori) ++ (p :: intf)).map XYZ.x),
    listMin (((q :: ori) ++ (p :: intf)).map XYZ.x),
    listMax (((q :: ori) ++ (p :: intf)).map XYZ.y),
    listMin (((q :: ori) ++ (p :: intf)).map XYZ.y),
    listMax (((q :: ori) ++ (p :: intf)).map XYZ.z),
    listMin (((q :: ori) ++ (p :: intf)).map XYZ.z),
    ?_, ?_, ?_, ?_, ?_, ?_, ?_⟩
  · rw [hset]; exact listMax_isGreatest_ne (hne _)
  · rw [hset]; exact listMin_isLeast_ne (hne _)
  · rw [hset]; exact listMax_isGreatest_ne (hne _)
  · rw [hset]; exact listMin_isLeast_ne (hne _)
  · rw [hset]; exact listMax_isGreatest_ne (hne _)
  · rw [hset]; exact listMin_isLeast_ne (hne _)
  · rfl

/-- C9. For every surface id and non-empty sampled scalar field, the
isovalue actually handed to the marching-cubes call lies within the
field's numeric range (so extraction can proceed rather than fail), it is
clamped to the field maximum when not below it and to the field minimum
when not above it, a warning is recorded exactly when the isovalue was out
of range, and an in-range isovalue passes through unchanged without a
warning. -/
theorem C9_isovalue_clamped (sfai : List (List ℚ)) (sid : ℕ) (f0 : ℚ) (fs : List ℚ) :
    (listMin (f0 :: fs) ≤ (compute_surface_isovalue sfai sid (f0 :: fs)).1 ∧
      (compute_surface_isovalue sfai sid (f0 :: fs)).1 ≤ listMax (f0 :: fs)) ∧
    (listMax (f0 :: fs) ≤ (sumAxis0 sfai).getD sid 0 →
      (compute_surface_isovalue sfai sid (f0 :: fs)).1 = listMax (f0 :: fs)) ∧
    ((sumAxis0 sfai).getD sid 0 ≤ listMin (f0 :: fs) →
      (compute_surface_isovalue sfai sid (f0 :: fs)).1 = listMin (f0 :: fs)) ∧
    (listMin (f0 :: fs) < (sumAxis0 sfai).getD sid 0 ∧
        (sumAxis0 sfai).getD sid 0 < listMax (f0 :: fs) →
      compute_surface_isovalue sfai sid (f0 :: fs) = ((sumAxis0 sfai).getD sid 0, false)) ∧
    ((listMax (f0 :: fs) ≤ (sumAxis0 sfai).getD sid 0 ∨
        (sumAxis0 sfai).getD sid 0 ≤ listMin (f0 :: fs)) →
      (compute_surface_isovalue sfai sid (f0 :: fs)).2 = true) := by
  have hmem : f0 ∈ f0 :: fs := List.mem_cons_self _ _
  have hnm : listMin (f0 :: fs) ≤ listMax (f0 :: fs) :=
    le_trans ((listMin_isLeast f0 fs).2 hmem) ((listMax_isGreatest f0 fs).2 hmem)
  simp only [compute_surface_isovalue]
  generalize (sumAxis0 sfai).getD sid 0 = p0
  by_cases hM : listMax (f0 :: fs) > p0
  · by_cases hm : listMin (f0 :: fs) < p0
    · have hr : clamp_isovalue (f0 :: fs) p0 = (p0, false) := by
        simp [clamp_isovalue, hM, hm]
      rw [hr]
      exact ⟨⟨le_of_lt hm, le_of_lt hM⟩,
        fun h => absurd h (not_le.mpr hM),
        fun h => absurd h (not_le.mpr hm),
        fun _ => rfl,
        fun h => h.elim (fun h1 => absurd h1 (not_le.mpr hM))
          (fun h1 => absurd h1 (not_le.mpr hm))⟩
    · have hr : clamp_isovalue (f0 :: fs) p0 = (listMin (f0 :: fs), true) := by
        simp [clamp_isovalue, hM, hm]
      rw [hr]
      exact ⟨⟨le_refl _, hnm⟩,
        fun h => absurd h (not_le.mpr hM),
        fun _ => rfl,
        fun h => absurd h.1 hm,
        fun _ => rfl⟩
  · have hMle : listMax (f0 :: fs) ≤ p0 := not_lt.mp hM
    by_cases hm2 : listMin (f0 :: fs) < listMax (f0 :: fs)
    · have hr : clamp_isovalue (f0 :: fs) p0 = (listMax (f0 :: fs), true) := by
        simp [clamp_isovalue, hM, hm2]
      rw [hr]
      exact ⟨⟨le_of_lt hm2, le_refl _⟩,
        fun _ => rfl,
        fun h => le_antisymm (le_trans hMle h) hnm,
        fun h => absurd (lt_of_le_of_lt hMle h.2) (lt_irrefl _),
        fun _ => rfl⟩
    · have heq : listMin (f0 :: fs) = listMax (f0 :: fs) :=
        le_antisymm hnm (not_lt.mp hm2)
      have hr : clamp_isovalue (f0 :: fs) p0 = (listMin (f0 :: fs), true) := by
        simp [clamp_isovalue, hM, hm2]
      rw [hr]
      exact ⟨⟨le_refl _, hnm⟩,
        fun _ => heq,
        fun _ => rfl,
        fun h => absurd (lt_of_le_of_lt hMle h.2) (lt_irrefl _),
        fun _ => rfl⟩

/-- C5. With no explicit values supplied, the default kriging range equals
the diagonal length of the grid extent (square root of the sum of squared
per-axis extent lengths), the default covariance-at-origin equals the range
squared divided by 14 divided by 3 (`range² / 42` overall), and
`set_u_grade(None)` selects 3 drift equations (degree 1) for every series
with more than one interface point and 0 (degree 0) otherwise, the grade
mapping sending degrees 0, 1, 2 to 0, 3, 9 equations. -/
theorem C5_kriging_defaults (e0 e1 e2 e3 e4 e5 : ℝ) (ls : List ℕ) :
    default_range e0 e1 e2 e3 e4 e5 =
      Real.sqrt ((e1 - e0) ^ 2 + (e3 - e2) ^ 2 + (e5 - e4) ^ 2) ∧
    default_c_o (default_range e0 e1 e2 e3 e4 e5) =
      ((e1 - e0) ^ 2 + (e3 - e2) ^ 2 + (e5 - e4) ^ 2) / 42 ∧
    set_u_grade_none ls = ls.map (fun l => if 1 < l then 3 else 0) ∧
    grade_to_n_eq 0 = 0 ∧ grade_to_n_eq 1 = 3 ∧ grade_to_n_eq 2 = 9 := by
  have hsq : (e0 - e1) ^ 2 + (e2 - e3) ^ 2 + (e4 - e5) ^ 2 =
      (e1 - e0) ^ 2 + (e3 - e2) ^ 2 + (e5 - e4) ^ 2 := by ring
  refine ⟨?_, ?_, ?_, rfl, rfl, rfl⟩
  · unfold default_range
    rw [hsq]
  · unfold default_c_o default_range
    rw [hsq, Real.sq_sqrt (by positivity)]
    ring
  · unfold set_u_grade_none
    rw [List.map_map]
    congr 1
    funext l
    by_cases h : 1 < l <;> simp [h, grade_to_n_eq, Function.comp]

theorem sum_value_counts (l : List ℕ) : (value_counts l).sum = l.length := by
  unfold value_counts
  have h1 : (l.dedup.map fun k => l.count k).sum =
      l.dedup.toFinset.sum fun k => l.count k :=
    (List.sum_toFinset _ (List.nodup_dedup l)).symm
  have h2 : l.dedup.toFinset = l.toFinset :=
    List.toFinset.ext fun x => List.mem_dedup
  rw [h1, h2, List.sum_toFinset_count_eq_length]

theorem getLast?_map_nat (f : ℕ → ℕ) : ∀ l : List ℕ, (l.map f).getLast? = l.getLast?.map f
  | [] => rfl
  | [_] => rfl
  | a :: b :: t => by
    simp only [List.map_cons, List.getLast?_cons_cons]
    exact getLast?_map_nat f (b :: t)

theorem cumsum_getLast? : ∀ (a : ℕ) (l : List ℕ),
    (cumsum (a :: l)).getLast? = some ((a :: l).sum)
  | a, [] => by simp [cumsum]
  | a, b :: t => by
    have ih := cumsum_getLast? b t
    show (a :: (cumsum (b :: t)).map (a + ·)).getLast? = some ((a :: b :: t).sum)
    rcases hc : cumsum (b :: t) with _ | ⟨c, cs⟩
    · exact absurd hc (by simp [cumsum])
    · rw [hc] at ih
      rw [List.map_cons, List.getLast?_cons_cons, ← List.map_cons, getLast?_map_nat, ih]
      simp [List.sum_cons, Nat.add_assoc]

theorem cumsum_sorted (l : List ℕ) : List.Sorted (· ≤ ·) (cumsum l) := by
  induction l with
  | nil => simp [cumsum]
  | cons a l ih =>
    show List.Sorted (· ≤ ·) (a :: (cumsum l).map (a + ·))
    rw [List.sorted_cons]
    constructor
    · intro b hb
      rcases List.mem_map.1 hb with ⟨x, _, rfl⟩
      exact Nat.le_add_right a x
    · exact List.Pairwise.map _ (fun x y h => Nat.add_le_add_left h a) ih

theorem nfs_getLast (rows : List IRow) (hne : rows ≠ [])
    (hfun : ∀ r1 ∈ rows, ∀ r2 ∈ rows,
      r1.surface = r2.surface → r1.order_series = r2.order_series) :
    (set_number_of_formations_per_series rows).getLast? =
      some ((rows.map IRow.surface).dedup.length) := by
  have hperm : List.Perm (List.insertionSort (· ≤ ·) (rows.map IRow.order_series).dedup)
      (rows.map IRow.order_series).dedup := List.perm_insertionSort _ _
  have hknd : (List.insertionSort (· ≤ ·) (rows.map IRow.order_series).dedup).Nodup :=
    hperm.nodup_iff.mpr (List.nodup_dedup _)
  obtain ⟨k0, ks, hcons⟩ : ∃ k0 ks,
      List.insertionSort (· ≤ ·) (rows.map IRow.order_series).dedup = k0 :: ks := by
    cases hk : List.insertionSort (· ≤ ·) (rows.map IRow.order_series).dedup with
    | nil =>
      exfalso
      rw [hk] at hperm
      have hd : (rows.map IRow.order_series).dedup = [] := hperm.symm.eq_nil
      have hmap : rows.map IRow.order_series = [] := (List.dedup_eq_nil _).mp hd
      exact hne (List.map_eq_nil_iff.mp hmap)
    | cons a l => exact ⟨a, l, rfl⟩
  have h1 : (set_number_of_formations_per_series rows).getLast? =
      some (((List.insertionSort (· ≤ ·) (rows.map IRow.order_series).dedup).map
        fun g => ((rows.filter fun r => r.order_series == g).map IRow.surface).dedup.length).sum) := by
    unfold set_number_of_formations_per_series
    rw [hcons, List.map_cons]
    rw [cumsum_getLast?]
  rw [h1]
  congr 1
  have h2 := (List.sum_toFinset
    (fun g => ((rows.filter fun r => r.order_series == g).map IRow.surface).dedup.length)
    hknd).symm
  rw [h2]
  have h3 : (List.insertionSort (· ≤ ·) (rows.map IRow.order_series).dedup).toFinset =
      (rows.map IRow.order_series).toFinset := by
    rw [List.toFinset_eq_of_perm _ _ hperm]
    exact List.toFinset.ext fun x => List.mem_dedup
  rw [h3]
  have h4 : ∀ g : ℕ,
      ((rows.filter fun r => r.order_series == g).map IRow.surface).dedup.length =
        ((rows.filter fun r => r.order_series == g).map IRow.surface).toFinset.card :=
    fun g => (List.card_toFinset _).symm
  rw [Finset.sum_congr rfl fun g _ => h4 g]
  have hdisj : ∀ g1 ∈ (rows.map IRow.order_series).toFinset,
      ∀ g2 ∈ (rows.map IRow.order_series).toFinset, g1 ≠ g2 →
      Disjoint (((rows.filter fun r => r.order_series == g1).map IRow.surface).toFinset)
        (((rows.filter fun r => r.order_series == g2).map IRow.surface).toFinset) := by
    intro g1 _ g2 _ hne12
    rw [Finset.disjoint_left]
    intro s hs1 hs2
    rcases List.mem_map.1 (List.mem_toFinset.1 hs1) with ⟨r1, hr1, hsr1⟩
    rcases List.mem_map.1 (List.mem_toFinset.1 hs2) with ⟨r2, hr2, hsr2⟩
    rcases List.mem_filter.1 hr1 with ⟨hr1m, hr1e⟩
    rcases List.mem_filter.1 hr2 with ⟨hr2m, hr2e⟩
    have e1 : r1.order_series = g1 := by simpa using hr1e
    have e2 : r2.order_series = g2 := by simpa using hr2e
    exact hne12 (e1 ▸ e2 ▸ hfun r1 hr1m r2 hr2m (hsr1.trans hsr2.symm))
  rw [← Finset.card_biUnion hdisj]
  have hcover : ((rows.map IRow.order_series).toFinset).biUnion
      (fun g => ((rows.filter fun r => r.order_series == g).map IRow.surface).toFinset) =
      (rows.map IRow.surface).toFinset := by
    ext s
    simp only [Finset.mem_biUnion, List.mem_toFinset, List.mem_map, List.mem_filter]
    constructor
    · rintro ⟨g, _, r, ⟨hrm, _⟩, rfl⟩
      exact ⟨r, hrm, rfl⟩
    · rintro ⟨r, hr, rfl⟩
      exact ⟨r.order_series, ⟨r, hr, rfl⟩, r, ⟨hr, by simp⟩, rfl⟩
  rw [hcover, List.card_toFinset]

/-- C4. For every Interfaces table with populated `id` and `order_series`
columns: `len_formations_i` sums to the total interface point count,
`len_series_i` sums to the total interface point count and is `[0]` on the
empty table (without raising), and `nfs` is non-decreasing. Its last
element equals the total number of distinct surfaces referenced provided
each surface is referenced under a single series (the data-model invariant
"every surface belongs to exactly one series"); without that hypothesis the
claim fails, see the counterexample. -/
theorem C4_structure_counts (rows : List IRow) :
    (set_length_formations_i rows).sum = rows.length ∧
    (set_length_series_i rows).sum = rows.length ∧
    set_length_series_i [] = [0] ∧
    List.Sorted (· ≤ ·) (set_number_of_formations_per_series rows) ∧
    (rows ≠ [] →
      (∀ r1 ∈ rows, ∀ r2 ∈ rows,
        r1.surface = r2.surface → r1.order_series = r2.order_series) →
      (set_number_of_formations_per_series rows).getLast? =
        some ((rows.map IRow.surface).dedup.length)) := by
  refine ⟨?_, ?_, rfl, cumsum_sorted _, nfs_getLast rows⟩
  · rw [set_length_formations_i, sum_value_counts, List.length_map]
  · by_cases h : value_counts (rows.map IRow.order_series) = []
    · have hmap : rows.map IRow.order_series = [] := by
        have hlen := congrArg List.length h
        rw [value_counts, List.length_map] at hlen
        exact (List.dedup_eq_nil _).mp (List.length_eq_zero.mp hlen)
      have hrows : rows = [] := List.map_eq_nil_iff.mp hmap
      subst hrows
      rfl
    · rw [set_length_series_i]
      rw [if_neg h, sum_value_counts, List.length_map]

/-- Witness for `C4_structure_counts`: a three-point table with surfaces
`A` (two points, series 1) and `B` (one point, series 2); the hypotheses of
the last conjunct hold and its conclusion evaluates to `some 2`. -/
theorem C4_structure_counts_witness :
    ([⟨1, 1, "A"⟩, ⟨2, 1, "A"⟩, ⟨3, 2, "B"⟩] : List IRow) ≠ [] ∧
    (set_number_of_formations_per_series [⟨1, 1, "A"⟩, ⟨2, 1, "A"⟩, ⟨3, 2, "B"⟩]).getLast? =
      some ((([⟨1, 1, "A"⟩, ⟨2, 1, "A"⟩, ⟨3, 2, "B"⟩] : List IRow).map IRow.surface).dedup.length) :=
  ⟨by decide, (C4_structure_counts _).2.2.2.2 (by decide) (by decide)⟩

/-- Counterexample for C4 as frozen: when the same surface is referenced
from two different series (violating no hypothesis of the claim, which only
requires `id` and `order_series` to be populated), the last element of
`nfs` is 2 while only 1 distinct surface is referenced. -/
theorem C4_structure_counts_counterexample :
    (set_number_of_formations_per_series [⟨1, 1, "A"⟩, ⟨2, 2, "A"⟩]).getLast? = some 2 ∧
    ((([⟨1, 1, "A"⟩, ⟨2, 2, "A"⟩] : List IRow).map IRow.surface).dedup.length) = 1 := by
  constructor <;> decide

theorem seriesAligned_apply_series_op (op : SeriesOp) (s : SeriesState) :
    seriesAligned (apply_series_op op s) := by
  cases op <;>
    simp [apply_series_op, add_series, rename_series, reorder_series, delete_series,
      seriesAligned]

/-- C6. After any sequence of `add_series`, `rename_series`,
`reorder_series` and `delete_series` operations from a synchronised state,
the faults-relation matrix keeps its row index and column index identical
to the Series index and in particular stays square; and the concrete
scenario of the claim — series `[A, B]`, add `C`, rename `B` to `B2`,
delete `A` — ends with all three indexes equal to `[B2, C]`, a 2-by-2
matrix. -/
theorem C6_faults_relations_sync (ops : List SeriesOp) (s : SeriesState)
    (h : seriesAligned s) :
    (seriesAligned (apply_series_ops ops s) ∧
      (apply_series_ops ops s).rel_rows.length = (apply_series_ops ops s).rel_cols.length) ∧
    (apply_series_ops [SeriesOp.add ["C"], SeriesOp.ren [("B", "B2")], SeriesOp.del ["A"]]
        (set_series_index ["A", "B"] series_init)).series_idx = ["B2", "C"] ∧
    (apply_series_ops [SeriesOp.add ["C"], SeriesOp.ren [("B", "B2")], SeriesOp.del ["A"]]
        (set_series_index ["A", "B"] series_init)).rel_rows = ["B2", "C"] ∧
    (apply_series_ops [SeriesOp.add ["C"], SeriesOp.ren [("B", "B2")], SeriesOp.del ["A"]]
        (set_series_index ["A", "B"] series_init)).rel_cols = ["B2", "C"] := by
  have hgen : ∀ (ops : List SeriesOp) (s : SeriesState), seriesAligned s →
      seriesAligned (apply_series_ops ops s) := by
    intro ops
    induction ops with
    | nil => intro s h; exact h
    | cons op ops ih => intro s _; exact ih _ (seriesAligned_apply_series_op op s)
  have ha := hgen ops s h
  exact ⟨⟨ha, by rw [ha.2.1, ha.2.2]⟩, by decide, by decide, by decide⟩

/-- Witness for `C6_faults_relations_sync`: applied to the freshly
initialised two-series state, which is synchronised. -/
theorem C6_faults_relations_sync_witness :
    seriesAligned (set_series_index ["A", "B"] series_init) ∧
    (seriesAligned (apply_series_ops [SeriesOp.add ["C"]]
        (set_series_index ["A", "B"] series_init)) ∧
      (apply_series_ops [SeriesOp.add ["C"]]
        (set_series_index ["A", "B"] series_init)).rel_rows.length =
      (apply_series_ops [SeriesOp.add ["C"]]
        (set_series_index ["A", "B"] series_init)).rel_cols.length) ∧
    (apply_series_ops [SeriesOp.add ["C"], SeriesOp.ren [("B", "B2")], SeriesOp.del ["A"]]
        (set_series_index ["A", "B"] series_init)).series_idx = ["B2", "C"] ∧
    (apply_series_ops [SeriesOp.add ["C"], SeriesOp.ren [("B", "B2")], SeriesOp.del ["A"]]
        (set_series_index ["A", "B"] series_init)).rel_rows = ["B2", "C"] ∧
    (apply_series_ops [SeriesOp.add ["C"], SeriesOp.ren [("B", "B2")], SeriesOp.del ["A"]]
        (set_series_index ["A", "B"] series_init)).rel_cols = ["B2", "C"] :=
  ⟨⟨rfl, rfl, rfl⟩,
    C6_faults_relations_sync [SeriesOp.add ["C"]]
      (set_series_index ["A", "B"] series_init) ⟨rfl, rfl, rfl⟩⟩

theorem labels_formations_set_id (c : FCatalog) :
    (formations_set_id c).rows.map FRow.label = c.rows.map FRow.label := by
  simp [formations_set_id, List.map_map, Function.comp]

theorem length_formations_set_id (c : FCatalog) :
    (formations_set_id c).rows.length = c.rows.length := by
  simp [formations_set_id]

theorem ids_formations_set_id (c : FCatalog) :
    (formations_set_id c).rows.map FRow.id =
      (c.rows.map FRow.label).map fun l => some (l + 1) := by
  simp [formations_set_id, List.map_map, Function.comp]

theorem labels_fillna (c : FCatalog) :
    (fillna_isBasement c).rows.map FRow.label = c.rows.map FRow.label := by
  simp [fillna_isBasement, List.map_map, Function.comp]

theorem ids_fillna (c : FCatalog) :
    (fillna_isBasement c).rows.map FRow.id = c.rows.map FRow.id := by
  simp [fillna_isBasement, List.map_map, Function.comp]

theorem length_fillna (c : FCatalog) :
    (fillna_isBasement c).rows.length = c.rows.length := by
  simp [fillna_isBasement]

theorem labels_ids_set_basement_auto (c : FCatalog) :
    (set_basement_auto c).rows.map FRow.label = c.rows.map FRow.label ∧
    (set_basement_auto c).rows.map FRow.id = c.rows.map FRow.id ∧
    (set_basement_auto c).rows.length = c.rows.length := by
  unfold set_basement_auto
  rcases h : ((fillna_isBasement c).rows.filter fun r => r.isBasement == some true).map
      FRow.formation with _ | ⟨b, _ | ⟨b2, bs⟩⟩ <;>
    simp only [h] <;>
    refine ⟨?_, ?_, ?_⟩ <;>
    simp [fillna_isBasement, List.map_map, Function.comp]

theorem range_getLast? (n : ℕ) :
    (List.range n).getLast? = if n = 0 then none else some (n - 1) := by
  cases n with
  | zero => rfl
  | succ m => rw [List.range_succ, List.getLast?_concat]; simp

theorem append_formation_row_labels (rs : List FRow) (n : String)
    (h : rs.map FRow.label = List.range rs.length) :
    (append_formation_row rs n).map FRow.label =
      List.range (append_formation_row rs n).length := by
  unfold append_formation_row
  rw [h, range_getLast?]
  by_cases h0 : rs.length = 0
  · have hnil : rs = [] := List.length_eq_zero.mp h0
    subst hnil
    rfl
  · rw [if_neg h0]
    simp only [List.map_append, List.map_cons, List.map_nil, h, List.length_append,
      List.length_cons, List.length_nil]
    rw [Nat.sub_add_cancel (Nat.one_le_iff_ne_zero.mpr h0)]
    simp [List.range_succ]

theorem fold_append_formation_labels :
    ∀ (new : List String) (rs : List FRow),
      rs.map FRow.label = List.range rs.length →
      (new.foldl append_formation_row rs).map FRow.label =
        List.range (new.foldl append_formation_row rs).length
  | [], rs, h => h
  | n :: new, rs, h =>
    fold_append_formation_labels new (append_formation_row rs n)
      (append_formation_row_labels rs n h)

/-- The label/id bookkeeping invariant of the Formations catalog as long
as no row has been deleted: labels are the positions `0..n-1` and the id
column is the label plus one. -/
def formations_inv (c : FCatalog) : Prop :=
  c.rows.map FRow.label = List.range c.rows.length ∧
  c.rows.map FRow.id = (c.rows.map FRow.label).map fun l => some (l + 1)

theorem formations_inv_set_formation_names_pro (names : List String) :
    formations_inv (set_formation_names_pro names) := by
  unfold set_formation_names_pro
  have hbase : (names.enum.map fun p =>
      ({ label := p.1, formation := p.2, isBasement := none, id := none } : FRow)).map
        FRow.label = List.range names.length := by
    rw [List.map_map]
    have : (FRow.label ∘ fun p : ℕ × String =>
        ({ label := p.1, formation := p.2, isBasement := none, id := none } : FRow)) =
        Prod.fst := rfl
    rw [this, List.enum_map_fst]
  constructor
  · rw [(labels_ids_set_basement_auto _).1, labels_formations_set_id,
      (labels_ids_set_basement_auto _).2.2, length_formations_set_id]
    simp only [List.length_map, List.enum_length]
    exact hbase
  · rw [(labels_ids_set_basement_auto _).2.1, ids_formations_set_id,
      (labels_ids_set_basement_auto _).1, labels_formations_set_id]

theorem formations_inv_add_formation (names : List String) (c : FCatalog)
    (h : formations_inv c) : formations_inv (add_formation names c) := by
  unfold add_formation
  constructor
  · rw [(labels_ids_set_basement_auto _).1, labels_formations_set_id,
      (labels_ids_set_basement_auto _).2.2, length_formations_set_id]
    exact fold_append_formation_labels _ _ h.1
  · rw [(labels_ids_set_basement_auto _).2.1, ids_formations_set_id,
      (labels_ids_set_basement_auto _).1, labels_formations_set_id]

theorem formations_inv_add_basement (name : Option String) (c : FCatalog)
    (h : formations_inv c) : formations_inv (apply_f_grow_op (.addB name) c) := by
  unfold apply_f_grow_op add_basement
  by_cases hb : 1 ≤ (fillna_isBasement c).rows.countP fun r => r.isBasement == some true
  · simp only [if_pos hb]
    exact ⟨by rw [labels_fillna, length_fillna]; exact h.1,
      by rw [ids_fillna, labels_fillna]; exact h.2⟩
  · simp only [if_neg hb]
    by_cases hcat : (fillna_isBasement c).cats.contains (name.getD "basement") = true
    · simp only [if_pos hcat]
      exact ⟨by rw [labels_fillna, length_fillna]; exact h.1,
        by rw [ids_fillna, labels_fillna]; exact h.2⟩
    · simp only [if_neg hcat]
      rcases hl : ((fillna_isBasement c).rows.map FRow.label).getLast? with _ | l
      · exact ⟨by rw [labels_fillna, length_fillna]; exact h.1,
          by rw [ids_fillna, labels_fillna]; exact h.2⟩
      · have hlab : (fillna_isBasement c).rows.map FRow.label =
            List.range (fillna_isBasement c).rows.length := by
          rw [labels_fillna, length_fillna]; exact h.1
        have hne0 : (fillna_isBasement c).rows.length ≠ 0 := by
          intro h0
          rw [hlab, h0] at hl
          cases hl
        have hlval : l = (fillna_isBasement c).rows.length - 1 := by
          rw [hlab, range_getLast?, if_neg hne0] at hl
          exact (Option.some.injEq _ _ ▸ hl).symm
        constructor
        · rw [labels_formations_set_id, length_formations_set_id]
          simp only [List.map_append, List.length_append, hlab, hlval]
          rw [Nat.sub_add_cancel (Nat.one_le_iff_ne_zero.mpr hne0)]
          simp [List.range_succ]
        · rw [ids_formations_set_id, labels_formations_set_id]

theorem formations_inv_grow_op (op : FGrowOp) (c : FCatalog)
    (h : formations_inv c) : formations_inv (apply_f_grow_op op c) := by
  cases op with
  | addF names => exact formations_inv_add_formation names c h
  | addB name => exact formations_inv_add_basement name c h

theorem formations_inv_grow_ops :
    ∀ (ops : List FGrowOp) (c : FCatalog), formations_inv c →
      formations_inv (apply_f_grow_ops ops c)
  | [], _, h => h
  | op :: ops, c, h =>
    formations_inv_grow_ops ops (apply_f_grow_op op c) (formations_inv_grow_op op c h)

/-- C7 (amended). `set_id` always writes `id = pandas index label + 1`,
and after `set_formation_names_pro` on a fresh catalog followed by any
sequence of `add_formation` / `add_basement`, the labels are the row
positions, so the id column is the consecutive sequence `1..n`.
`delete_formation` keeps the surviving labels unchanged, so deleting a row
other than the last one leaves a non-consecutive id column (see the
counterexample). -/
theorem C7_formation_ids (c : FCatalog) (names : List String) (ops : List FGrowOp) :
    (formations_set_id c).rows.map FRow.id =
      (c.rows.map FRow.label).map (fun l => some (l + 1)) ∧
    (apply_f_grow_ops ops (set_formation_names_pro names)).rows.map FRow.id =
      (List.range (apply_f_grow_ops ops (set_formation_names_pro names)).rows.length).map
        (fun i => some (i + 1)) := by
  refine ⟨ids_formations_set_id c, ?_⟩
  have h := formations_inv_grow_ops ops _ (formations_inv_set_formation_names_pro names)
  rw [h.2, h.1]

/-- Counterexample for C7 as frozen: deleting the first of two formations
leaves the id column `[2]`, not the consecutive 1-based sequence `[1]` —
`set_id` recomputes `id` from the pandas label, which `drop` does not
renumber. -/
theorem C7_formation_ids_counterexample :
    ((delete_formation [0] (set_formation_names_pro ["F0", "F1"])).rows.map FRow.id) =
      [some 2] ∧
    (List.range (delete_formation [0]
        (set_formation_names_pro ["F0", "F1"])).rows.length).map (fun i => some (i + 1)) =
      [some 1] := by
  constructor <;> decide

theorem fillna_eq_self (c : FCatalog) (hclean : ∀ r ∈ c.rows, r.isBasement ≠ none) :
    fillna_isBasement c = c := by
  unfold fillna_isBasement
  have hmap : c.rows.map (fun r => { r with isBasement := some (r.isBasement.getD false) }) =
      c.rows := by
    conv_rhs => rw [← List.map_id c.rows]
    apply List.map_congr_left
    intro r hr
    rcases h : r.isBasement with _ | b
    · exact absurd h (hclean r hr)
    · cases r
      simp_all
  rw [hmap]

theorem countP_basement_assign (rows : List FRow) (bname : String) :
    (rows.map fun r => { r with isBasement := some (r.formation == bname) }).countP
      (fun r => r.isBasement == some true) =
    rows.countP (fun r => r.formation == bname) := by
  rw [List.countP_map]
  apply List.countP_congr
  intro r _
  show (some (r.formation == bname) == some true) = true ↔ (r.formation == bname) = true
  cases h : r.formation == bname <;> simp [h]

/-- C8. Under the standing condition that the `isBasement` column carries
no NaN (true of every catalog the class builds, since each constructor
path runs `set_basement`): `add_basement` raises the documented assertion
`Only one formation can be basement` when a basement already exists, with
the catalog untouched (the only statement executed before the assert is
the no-op fillna, and no row is appended); with no existing basement and a
basement name that is not already a formation category it succeeds and
exactly one row is flagged, while a name collision makes
`cat.add_categories` raise a `ValueError` — again before any row is
appended, with the catalog untouched. `set_basement` with an explicit
name raises the same assertion when the assignment flags two or more rows,
and with exactly one matching row it succeeds with exactly one flag. -/
theorem C8_basement_invariant (c : FCatalog) (name : Option String) (bname : String)
    (hclean : ∀ r ∈ c.rows, r.isBasement ≠ none) :
    (1 ≤ c.rows.countP (fun r => r.isBasement == some true) →
      add_basement name c = .error "Only one formation can be basement" ∧
      fillna_isBasement c = c) ∧
    (c.rows.countP (fun r => r.isBasement == some true) = 0 →
      c.cats.contains (name.getD "basement") = false → c.rows ≠ [] →
      ∃ c', add_basement name c = .ok c' ∧
        c'.rows.countP (fun r => r.isBasement == some true) = 1) ∧
    (c.rows.countP (fun r => r.isBasement == some true) = 0 →
      c.cats.contains (name.getD "basement") = true →
      add_basement name c =
        .error "ValueError: new categories must not include old categories" ∧
      fillna_isBasement c = c) ∧
    (1 < c.rows.countP (fun r => r.formation == bname) →
      set_basement_named bname c = .error "Only one formation can be basement") ∧
    (c.rows.countP (fun r => r.formation == bname) = 1 →
      ∃ c', set_basement_named bname c = .ok c' ∧
        c'.rows.countP (fun r => r.isBasement == some true) = 1) := by
  have hfill := fillna_eq_self c hclean
  refine ⟨?_, ?_, ?_, ?_, ?_⟩
  · intro h1
    refine ⟨?_, hfill⟩
    unfold add_basement
    rw [hfill, if_pos h1]
  · intro h0 hcc hne
    unfold add_basement
    rw [hfill, if_neg (by rw [h0]; exact Nat.not_succ_le_zero 0),
      if_neg (by rw [hcc]; exact Bool.false_ne_true)]
    have hmne : c.rows.map FRow.label ≠ [] := by
      simpa using hne
    rcases hg : (c.rows.map FRow.label).getLast? with _ | l
    · exact absurd (List.getLast?_eq_none_iff.mp hg) hmne
    · refine ⟨_, rfl, ?_⟩
      rw [formations_set_id]
      rw [List.countP_map]
      rw [List.countP_append]
      have hc : c.rows.countP ((fun r => r.isBasement == some true) ∘
          fun r => { r with id := some (r.label + 1) }) =
          c.rows.countP (fun r => r.isBasement == some true) := by
        apply List.countP_congr
        intro r _
        constructor <;> intro h <;> exact h
      rw [hc, h0]
      rfl
  · intro h0 hcc
    refine ⟨?_, hfill⟩
    unfold add_basement
    rw [hfill, if_neg (by rw [h0]; exact Nat.not_succ_le_zero 0), if_pos hcc]
  · intro h2
    unfold set_basement_named
    rw [hfill, if_pos (by rw [countP_basement_assign]; exact h2)]
  · intro h1
    unfold set_basement_named
    rw [hfill, if_neg (by rw [countP_basement_assign, h1]; exact lt_irrefl 1)]
    exact ⟨_, rfl, by rw [countP_basement_assign, h1]⟩

/-- Witness for `C8_basement_invariant`: a two-row catalog whose second
row is already the basement; the hypotheses hold and `add_basement`
raises with the catalog untouched. -/
theorem C8_basement_invariant_witness :
    (∀ r ∈ (FCatalog.mk [⟨0, "F0", some false, some 1⟩, ⟨1, "basement", some true, some 2⟩]
        ["F0", "basement"]).rows, r.isBasement ≠ none) ∧
    (1 ≤ (FCatalog.mk [⟨0, "F0", some false, some 1⟩, ⟨1, "basement", some true, some 2⟩]
        ["F0", "basement"]).rows.countP (fun r => r.isBasement == some true) →
      add_basement none (FCatalog.mk [⟨0, "F0", some false, some 1⟩,
          ⟨1, "basement", some true, some 2⟩] ["F0", "basement"]) =
        .error "Only one formation can be basement" ∧
      fillna_isBasement (FCatalog.mk [⟨0, "F0", some false, some 1⟩,
          ⟨1, "basement", some true, some 2⟩] ["F0", "basement"]) =
        FCatalog.mk [⟨0, "F0", some false, some 1⟩, ⟨1, "basement", some true, some 2⟩]
          ["F0", "basement"]) :=
  ⟨by decide,
    (C8_basement_invariant (FCatalog.mk [⟨0, "F0", some false, some 1⟩,
      ⟨1, "basement", some true, some 2⟩] ["F0", "basement"]) none "F0" (by decide)).1⟩

/-- C10. `pole_vector` is authoritative in `Orientations`:
`set_orientations` with both a pole vector and an orientation triple
produces the same result whatever the triple (it is ignored, with the
warning flag set), and the stored dip/azimuth/polarity are recomputed from
the gradient by `calculate_orientations`. `modify_orientation` with a list
`idx` covering the frame does overwrite dip/azimuth/polarity from the
updated gradient whenever a `G` component is among the modified
properties, even when dip and azimuth are modified in the same call — but
only with the unnormalised `calculate_orientations_idx` values (the `+360`
shift and small-dip zeroing are chained assignments on a copy and never
reach the frame); with a scalar `idx` that same recomputation raises on
the azimuth-shift line, and the inverted entry assert rejects any `idx`
not covering every row of the frame. `add_orientation` never reaches the
recomputation at all: its `.loc` call uses an 8-tuple key and pandas
raises `IndexingError: Too many indexers` first (the claimed recomputation
is the evident intent, per the function's own error message). -/
theorem C10_pole_vector_priority
    (cats : List String) (coord pv oriA oriB : List (ℝ × ℝ × ℝ)) (surfs : List String)
    (X Y Z gx gy gz : ℝ) (o1 : ℝ × ℝ × ℝ) (s : String)
    (row : ORow) (gx2 d a : ℝ)
    (X2 Y2 Z2 : ℝ) (s2 : String) (pv2 : ℝ × ℝ × ℝ) (ori2 : Option (ℝ × ℝ × ℝ))
    (r0 r1 : ORow) (rest : List ORow) :
    set_orientations cats (some coord) (some pv) (some oriA) (some surfs) =
      set_orientations cats (some coord) (some pv) (some oriB) (some surfs) ∧
    set_orientations [s] (some [(X, Y, Z)]) (some [(gx, gy, gz)]) (some [o1]) (some [s]) =
      .ok ([{ X := X, Y := Y, Z := Z, G_x := gx, G_y := gy, G_z := gz,
              dip := (calculate_orientations gx gy gz).1,
              azimuth := (calculate_orientations gx gy gz).2.1,
              polarity := (calculate_orientations gx gy gz).2.2,
              surface := s }], true) ∧
    modify_orientation (.list [0]) { G_x := some gx2, dip := some d, azimuth := some a }
        [row] =
      .ok [{ X := row.X, Y := row.Y, Z := row.Z,
             G_x := gx2, G_y := row.G_y, G_z := row.G_z,
             dip := (calculate_orientations_idx gx2 row.G_y row.G_z).1,
             azimuth := (calculate_orientations_idx gx2 row.G_y row.G_z).2.1,
             polarity := (calculate_orientations_idx gx2 row.G_y row.G_z).2.2,
             surface := row.surface }] ∧
    modify_orientation (.scalar 0) { G_x := some gx2, dip := some d, azimuth := some a }
        [row] =
      .error "IndexError: invalid index to scalar variable" ∧
    modify_orientation (.list [0]) { G_x := some gx2 } [r0, r1] =
      .error "AssertionError: Indices must exist in the dataframe to be modified." ∧
    add_orientation X2 Y2 Z2 s2 (some pv2) ori2 (r0 :: rest) =
      .error "IndexingError: Too many indexers" ∧
    add_orientation X2 Y2 Z2 s2 none none rest =
      .error "Either pole_vector or orientation must have a value. If both are passed pole_vector has preference" := by
  refine ⟨rfl, ?_, rfl, rfl, rfl, rfl, rfl⟩
  simp [set_orientations]

theorem deg2rad_rad2deg (x : ℝ) : deg2rad (rad2deg x) = x := by
  unfold deg2rad rad2deg
  field_simp

theorem sin_deg2rad_add_360 (x : ℝ) :
    Real.sin (deg2rad (x + 360)) = Real.sin (deg2rad x) := by
  unfold deg2rad
  rw [show (x + 360) * Real.pi / 180 = x * Real.pi / 180 + 2 * Real.pi by ring]
  exact Real.sin_add_two_pi _

theorem cos_deg2rad_add_360 (x : ℝ) :
    Real.cos (deg2rad (x + 360)) = Real.cos (deg2rad x) := by
  unfold deg2rad
  rw [show (x + 360) * Real.pi / 180 = x * Real.pi / 180 + 2 * Real.pi by ring]
  exact Real.cos_add_two_pi _

theorem sqrt_one_add_div_sq (x y : ℝ) (hx : x ≠ 0) :
    Real.sqrt (1 + (y / x) ^ 2) = Real.sqrt (x ^ 2 + y ^ 2) / |x| := by
  rw [show 1 + (y / x) ^ 2 = (x ^ 2 + y ^ 2) / x ^ 2 by field_simp]
  rw [Real.sqrt_div' _ (sq_nonneg x), Real.sqrt_sq_eq_abs]

theorem sqrt_sq_add_sq_pos (x y : ℝ) (h : ¬(x = 0 ∧ y = 0)) :
    0 < Real.sqrt (x ^ 2 + y ^ 2) := by
  apply Real.sqrt_pos.mpr
  rcases not_and_or.mp h with hx | hy
  · have h2 : 0 < x ^ 2 := (sq_nonneg x).lt_of_ne (Ne.symm (pow_ne_zero 2 hx))
    nlinarith [sq_nonneg y]
  · have h2 : 0 < y ^ 2 := (sq_nonneg y).lt_of_ne (Ne.symm (pow_ne_zero 2 hy))
    nlinarith [sq_nonneg x]

theorem div_div_div_same (a b s : ℝ) (hb : b ≠ 0) : (a / b) / (s / b) = a / s := by
  rw [div_div_div_cancel_right₀]
  exact hb

theorem sin_arctan2 (y x : ℝ) (h : ¬(x = 0 ∧ y = 0)) :
    Real.sin (arctan2 y x) = y / Real.sqrt (x ^ 2 + y ^ 2) := by
  have hs : 0 < Real.sqrt (x ^ 2 + y ^ 2) := sqrt_sq_add_sq_pos x y h
  unfold arctan2
  by_cases hx : 0 < x
  · rw [if_pos hx, Real.sin_arctan, sqrt_one_add_div_sq x y (ne_of_gt hx), abs_of_pos hx]
    field_simp
  · rw [if_neg hx]
    by_cases hx2 : x < 0
    · rw [if_pos hx2]
      by_cases hy : 0 ≤ y
      · rw [if_pos hy, Real.sin_add_pi, Real.sin_arctan,
          sqrt_one_add_div_sq x y (ne_of_lt hx2), abs_of_neg hx2, div_neg, div_neg,
          neg_neg, div_div_div_same y x (Real.sqrt (x ^ 2 + y ^ 2)) (ne_of_lt hx2)]
      · rw [if_neg hy, Real.sin_sub_pi, Real.sin_arctan,
          sqrt_one_add_div_sq x y (ne_of_lt hx2), abs_of_neg hx2, div_neg, div_neg,
          neg_neg, div_div_div_same y x (Real.sqrt (x ^ 2 + y ^ 2)) (ne_of_lt hx2)]
    · have hx0 : x = 0 := le_antisymm (not_lt.mp hx) (not_lt.mp hx2)
      subst hx0
      rw [if_neg (lt_irrefl (0 : ℝ))]
      have hyne : y ≠ 0 := fun hy0 => h ⟨rfl, hy0⟩
      rw [show (0 : ℝ) ^ 2 + y ^ 2 = y ^ 2 by ring, Real.sqrt_sq_eq_abs] at hs ⊢
      by_cases hy : 0 < y
      · rw [if_pos hy, Real.sin_pi_div_two, abs_of_pos hy, div_self (ne_of_gt hy)]
      · rw [if_neg hy, if_pos (lt_of_le_of_ne (not_lt.mp hy) hyne), Real.sin_neg,
          Real.sin_pi_div_two, abs_of_neg (lt_of_le_of_ne (not_lt.mp hy) hyne), div_neg,
          div_self hyne]

theorem cos_arctan2 (y x : ℝ) (h : ¬(x = 0 ∧ y = 0)) :
    Real.cos (arctan2 y x) = x / Real.sqrt (x ^ 2 + y ^ 2) := by
  have hs : 0 < Real.sqrt (x ^ 2 + y ^ 2) := sqrt_sq_add_sq_pos x y h
  unfold arctan2
  by_cases hx : 0 < x
  · rw [if_pos hx, Real.cos_arctan, sqrt_one_add_div_sq x y (ne_of_gt hx), abs_of_pos hx,
      one_div_div]
  · rw [if_neg hx]
    by_cases hx2 : x < 0
    · rw [if_pos hx2]
      by_cases hy : 0 ≤ y
      · rw [if_pos hy, Real.cos_add_pi, Real.cos_arctan,
          sqrt_one_add_div_sq x y (ne_of_lt hx2), abs_of_neg hx2, div_neg, div_neg,
          neg_neg, one_div_div]
      · rw [if_neg hy, Real.cos_sub_pi, Real.cos_arctan,
          sqrt_one_add_div_sq x y (ne_of_lt hx2), abs_of_neg hx2, div_neg, div_neg,
          neg_neg, one_div_div]
    · have hx0 : x = 0 := le_antisymm (not_lt.mp hx) (not_lt.mp hx2)
      subst hx0
      rw [if_neg (lt_irrefl (0 : ℝ))]
      have hyne : y ≠ 0 := fun hy0 => h ⟨rfl, hy0⟩
      by_cases hy : 0 < y
      · rw [if_pos hy, Real.cos_pi_div_two, zero_div]
      · rw [if_neg hy, if_pos (lt_of_le_of_ne (not_lt.mp hy) hyne), Real.cos_neg,
          Real.cos_pi_div_two, zero_div]

theorem abs_eps_key (a b : ℝ) (hab : a = b) : |a + 1e-12 - b| ≤ 1e-12 := by
  subst hab
  rw [add_sub_cancel_left, abs_of_nonneg (by norm_num)]

/-- C3. For a unit gradient `(G_x, G_y, G_z)` away from the
horizontal-normal singularity (the computed dip at least the 0.001-degree
threshold of the source), converting gradient to (dip, azimuth, polarity)
with `calculate_orientations` and back with `calculate_gradient`
reproduces each component of the original vector within the 1e-12
numerical tolerance the source itself adds to every component. -/
theorem C3_gradient_orientation_roundtrip (gx gy gz : ℝ)
    (hunit : gx ^ 2 + gy ^ 2 + gz ^ 2 = 1)
    (hdip : 0.001 ≤ (calculate_orientations gx gy gz).1) :
    |(calculate_gradient (calculate_orientations gx gy gz).1
        (calculate_orientations gx gy gz).2.1
        (calculate_orientations gx gy gz).2.2).1 - gx| ≤ 1e-12 ∧
    |(calculate_gradient (calculate_orientations gx gy gz).1
        (calculate_orientations gx gy gz).2.1
        (calculate_orientations gx gy gz).2.2).2.1 - gy| ≤ 1e-12 ∧
    |(calculate_gradient (calculate_orientations gx gy gz).1
        (calculate_orientations gx gy gz).2.1
        (calculate_orientations gx gy gz).2.2).2.2 - gz| ≤ 1e-12 := by
  have hgz1 : -1 ≤ gz := by nlinarith [sq_nonneg gx, sq_nonneg gy, sq_nonneg (gz + 1)]
  have hgz2 : gz ≤ 1 := by nlinarith [sq_nonneg gx, sq_nonneg gy, sq_nonneg (gz - 1)]
  have hco : calculate_orientations gx gy gz =
      (rad2deg (Real.arccos gz),
       if rad2deg (Real.arccos gz) < 0.001 then 0
       else (if rad2deg (arctan2 gx gy) < 0 then rad2deg (arctan2 gx gy) + 360
             else rad2deg (arctan2 gx gy)), 1) := by
    simp only [calculate_orientations, div_one]
  have hdip2 : (0.001 : ℝ) ≤ rad2deg (Real.arccos gz) := by
    have h := hdip
    rw [hco] at h
    exact h
  have hnotlt : ¬ rad2deg (Real.arccos gz) < 0.001 := not_lt.mpr hdip2
  have hsAZ : Real.sin (deg2rad (if rad2deg (arctan2 gx gy) < 0 then
      rad2deg (arctan2 gx gy) + 360 else rad2deg (arctan2 gx gy))) =
      Real.sin (arctan2 gx gy) := by
    by_cases hA : rad2deg (arctan2 gx gy) < 0
    · rw [if_pos hA, sin_deg2rad_add_360, deg2rad_rad2deg]
    · rw [if_neg hA, deg2rad_rad2deg]
  have hcAZ : Real.cos (deg2rad (if rad2deg (arctan2 gx gy) < 0 then
      rad2deg (arctan2 gx gy) + 360 else rad2deg (arctan2 gx gy))) =
      Real.cos (arctan2 gx gy) := by
    by_cases hA : rad2deg (arctan2 gx gy) < 0
    · rw [if_pos hA, cos_deg2rad_add_360, deg2rad_rad2deg]
    · rw [if_neg hA, deg2rad_rad2deg]
  simp only [hco, calculate_gradient]
  rw [if_neg hnotlt, deg2rad_rad2deg, hsAZ, hcAZ, Real.sin_arccos,
    Real.cos_arccos hgz1 hgz2]
  by_cases hz : gx = 0 ∧ gy = 0
  · obtain ⟨hx0, hy0⟩ := hz
    subst hx0
    subst hy0
    have h0 : (1 : ℝ) - gz ^ 2 = 0 := by nlinarith
    rw [h0, Real.sqrt_zero]
    exact ⟨abs_eps_key _ _ (by ring), abs_eps_key _ _ (by ring),
      abs_eps_key _ _ (by ring)⟩
  · have hne2 : ¬(gy = 0 ∧ gx = 0) := fun hp => hz ⟨hp.2, hp.1⟩
    have hrpos : 0 < Real.sqrt (gy ^ 2 + gx ^ 2) := sqrt_sq_add_sq_pos gy gx hne2
    have hsum : (1 : ℝ) - gz ^ 2 = gy ^ 2 + gx ^ 2 := by nlinarith
    rw [sin_arctan2 gx gy hne2, cos_arctan2 gx gy hne2, hsum]
    refine ⟨abs_eps_key _ _ ?_, abs_eps_key _ _ ?_, abs_eps_key _ _ (by ring)⟩
    · rw [mul_one, ← mul_div_assoc, mul_div_cancel_left₀ _ (ne_of_gt hrpos)]
    · rw [mul_one, ← mul_div_assoc, mul_div_cancel_left₀ _ (ne_of_gt hrpos)]

/-- Witness for `C3_gradient_orientation_roundtrip`: the unit gradient
`(1, 0, 0)` (a vertical plane), whose computed dip is 90 degrees, far from
the 0.001-degree singularity threshold. -/
theorem C3_gradient_orientation_roundtrip_witness :
    ((1 : ℝ) ^ 2 + 0 ^ 2 + 0 ^ 2 = 1) ∧
    ((0.001 : ℝ) ≤ (calculate_orientations 1 0 0).1) ∧
    |(calculate_gradient (calculate_orientations 1 0 0).1
        (calculate_orientations 1 0 0).2.1
        (calculate_orientations 1 0 0).2.2).1 - 1| ≤ 1e-12 := by
  have hd90 : (calculate_orientations 1 0 0).1 = 90 := by
    simp only [calculate_orientations, div_one]
    rw [Real.arccos_zero]
    unfold rad2deg
    field_simp
    ring
  have hdip : (0.001 : ℝ) ≤ (calculate_orientations 1 0 0).1 := by
    rw [hd90]
    norm_num
  exact ⟨by norm_num, hdip,
    (C3_gradient_orientation_roundtrip 1 0 0 (by norm_num) hdip).1⟩

/-- Witness for `C9_isovalue_clamped`: a field with range `[1, 2]` and an
out-of-range isovalue 10, which is clamped to the field maximum. -/
theorem C9_isovalue_clamped_witness :
    listMax (1 :: [2]) ≤ (sumAxis0 [[10, 0], [0, 0]]).getD 0 0 ∧
    (compute_surface_isovalue [[10, 0], [0, 0]] 0 (1 :: [2])).1 = listMax (1 :: [2]) := by
  have hle : listMax (1 :: [2]) ≤ (sumAxis0 [[10, 0], [0, 0]]).getD 0 0 := by
    norm_num [listMax, sumAxis0, max_le_iff]
  exact ⟨hle, (C9_isovalue_clamped [[10, 0], [0, 0]] 0 1 [2]).2.1 hle⟩
